import Mathlib

/-!
# Verification of the flocker volume-manager prototype

Shallow embedding of `src/prototype/flocker.py`.  The Python code works on
byte strings, which we model as `List Char` (`Bytes`).  Python's
`bytes.split(sep)` for a one-byte separator and `sep.join(parts)` are
reproduced by the structurally recursive `split` and `join` below.

The zfs subprocess calls are modelled as a trace of `ZfsCall` values;
`zfs(...)` raises on non-zero exit status, which we model by threading an
environment `ok : ZfsCall → Bool` saying which engine calls succeed, and
returning the list of issued calls together with an optional error.
-/

namespace Flocker4

/-- Python byte strings (`b"..."`). -/
abbrev Bytes := List Char

/-- Convert a Lean string literal to the `Bytes` model. -/
def bytes (s : String) : Bytes := s.toList

/-- Python `s.split(sep)` for a single-character separator: splits `s` at every
occurrence of `sep`; the empty string splits to `[[]]`, matching
`b"".split(b".") == [b""]`. -/
def split (sep : Char) : Bytes → List Bytes
  | [] => [[]]
  | c :: rest =>
    let r := split sep rest
    if c = sep then [] :: r
    else
      match r with
      | [] => [[c]]
      | t :: ts => (c :: t) :: ts

/-- Python `sep.join(parts)` for a single-character separator. -/
def join (sep : Char) : List Bytes → Bytes
  | [] => []
  | [t] => t
  | t :: ts => t ++ sep :: join sep ts

/-- `FlockerBranch` namedtuple: fields `flockerName`, `volume`, `branch`
(flocker.py line 27). -/
structure FlockerBranch where
  flockerName : Bytes
  volume : Bytes
  branch : Bytes
deriving DecidableEq, Repr

/-- `FlockerBranch.datasetName` (flocker.py lines 28-33):
`poolName + b"/" + b".".join([flockerName, volume, branch])`. -/
def FlockerBranch.datasetName (b : FlockerBranch) (poolName : Bytes) : Bytes :=
  poolName ++ ['/'] ++ join '.' [b.flockerName, b.volume, b.branch]

/-- `FlockerBranch.fromDatasetName` (flocker.py lines 36-41):
`cls(*datasetName.split(b"."))`.  The starred call succeeds exactly when the
split yields three parts (a wrong arity raises `TypeError`), modelled as
`Option`. -/
def FlockerBranch.fromDatasetName (datasetName : Bytes) : Option FlockerBranch :=
  match split '.' datasetName with
  | [f, v, b] => some ⟨f, v, b⟩
  | _ => none

/-- `FlockerBranch.fromBranchName` (flocker.py lines 44-53): split on `/`,
insert `thisFlockerName` in front when there are exactly two parts, then
`cls(*parts)` (again `Option` for the arity check). -/
def FlockerBranch.fromBranchName (branchName thisFlockerName : Bytes) :
    Option FlockerBranch :=
  let parts := split '/' branchName
  let parts := if parts.length = 2 then thisFlockerName :: parts else parts
  match parts with
  | [f, v, b] => some ⟨f, v, b⟩
  | _ => none

/-- One invocation of the `zfs` helper (flocker.py lines 19-23), by subcommand. -/
inductive ZfsCall where
  | create (name : Bytes)
  | snapshot (name : Bytes)
  | clone (snapshotName name : Bytes)
deriving DecidableEq, Repr

/-- Errors surfaced by the volume manager: the `ValueError` of
`branchOffBranch` (line 96) and the `CalledProcessError` that
`subprocess.check_call` raises on non-zero zfs exit status (line 23),
tagged with the failed call. -/
inductive FlockerError where
  | crossVolumeBranch
  | engineFailure (call : ZfsCall)
deriving DecidableEq, Repr

/-- `Flocker.__init__` state (flocker.py lines 61-65): the pool name; the
flocker (owner) name is re-used from the pool name, and the mount root is
`/<poolName>`. -/
structure Flocker where
  poolName : Bytes
deriving DecidableEq, Repr

/-- `self.flockerName = poolName` (flocker.py line 65). -/
def Flocker.flockerName (f : Flocker) : Bytes := f.poolName

/-- `Flocker.createVolume` (flocker.py lines 68-74): builds the trunk branch
identifier and issues one `zfs create`.  Returns the trace of engine calls. -/
def Flocker.createVolume (f : Flocker) (volumeName : Bytes) : List ZfsCall :=
  [ZfsCall.create
    ((FlockerBranch.mk f.flockerName volumeName (bytes "trunk")).datasetName
      f.poolName)]

/-- The rendering step of `Flocker.listVolumes` (flocker.py lines 87-90):
`b"%s/%s" % (volume, branch)` when the owner is local, else
`b"/".join(branch)` over the whole triple.  This is the spec's
`formatForDisplay`. -/
def formatForDisplay (flockerName : Bytes) (b : FlockerBranch) : Bytes :=
  if b.flockerName = flockerName then b.volume ++ '/' :: b.branch
  else join '/' [b.flockerName, b.volume, b.branch]

/-- Loop body of `Flocker.listVolumes` (flocker.py lines 81-91) over the
directory listing: entries without a `.` are skipped; the rest are decoded
with `fromDatasetName` (whose `TypeError` aborts the whole call: `none`) and
rendered with `formatForDisplay`. -/
def listVolumesAux (flockerName : Bytes) : List Bytes → Option (List Bytes)
  | [] => some []
  | e :: rest =>
    if '.' ∈ e then
      match FlockerBranch.fromDatasetName e with
      | none => none
      | some b =>
        (listVolumesAux flockerName rest).map
          (fun r => formatForDisplay flockerName b :: r)
    else listVolumesAux flockerName rest

/-- `Flocker.listVolumes` (flocker.py lines 77-91); `entries` models
`self.mountRoot.listdir()`. -/
def Flocker.listVolumes (f : Flocker) (entries : List Bytes) :
    Option (List Bytes) :=
  listVolumesAux f.flockerName entries

/-- `Flocker.branchOffBranch` (flocker.py lines 94-100): reject cross-volume
branching, else snapshot then clone.  `ok` tells which engine calls succeed;
a failing call aborts (the `CalledProcessError` propagates), and the issued
trace is returned along with the error, if any. -/
def Flocker.branchOffBranch (f : Flocker) (ok : ZfsCall → Bool)
    (newBranch fromBranch : FlockerBranch) :
    List ZfsCall × Option FlockerError :=
  if newBranch.volume ≠ fromBranch.volume then
    ([], some FlockerError.crossVolumeBranch)
  else
    let snapshotName := fromBranch.datasetName f.poolName ++ '@' :: newBranch.branch
    let c1 := ZfsCall.snapshot snapshotName
    if ok c1 then
      let c2 := ZfsCall.clone snapshotName (newBranch.datasetName f.poolName)
      if ok c2 then ([c1, c2], none)
      else ([c1, c2], some (FlockerError.engineFailure c2))
    else ([c1], some (FlockerError.engineFailure c1))

/-- Summary of what the `listVolumes` loop does to a single well-behaved
entry: `none` when the entry is skipped as junk, `some` of its display
rendering otherwise. -/
def renderEntry (flockerName : Bytes) (e : Bytes) : Option Bytes :=
  if '.' ∈ e then (FlockerBranch.fromDatasetName e).map (formatForDisplay flockerName)
  else none

/-! ## Helper lemmas about `split` and `join` -/

theorem split_of_not_mem (sep : Char) (a : Bytes) (h : sep ∉ a) :
    split sep a = [a] := by
  induction a with
  | nil => rfl
  | cons c a ih =>
    have hc : ¬ c = sep := fun hcs => h (hcs ▸ List.mem_cons_self c a)
    have ha : sep ∉ a := fun hm => h (List.mem_cons_of_mem c hm)
    simp [split, hc, ih ha]

theorem split_append_cons (sep : Char) (a : Bytes) (h : sep ∉ a) (rest : Bytes) :
    split sep (a ++ sep :: rest) = a :: split sep rest := by
  induction a with
  | nil => simp [split]
  | cons c a ih =>
    have hc : ¬ c = sep := fun hcs => h (hcs ▸ List.mem_cons_self c a)
    have ha : sep ∉ a := fun hm => h (List.mem_cons_of_mem c hm)
    simp only [List.cons_append, split, hc, if_false, List.append_eq]
    rw [ih ha]

theorem split_join_three (sep : Char) (a b c : Bytes)
    (ha : sep ∉ a) (hb : sep ∉ b) (hc : sep ∉ c) :
    split sep (join sep [a, b, c]) = [a, b, c] := by
  have hj : join sep [a, b, c] = a ++ sep :: (b ++ sep :: c) := by
    simp [join]
  rw [hj, split_append_cons sep a ha, split_append_cons sep b hb,
    split_of_not_mem sep c hc]

theorem isSome_fromDatasetName (s : Bytes) :
    (FlockerBranch.fromDatasetName s).isSome ↔ (split '.' s).length = 3 := by
  unfold FlockerBranch.fromDatasetName
  rcases h : split '.' s with _ | ⟨a, _ | ⟨b, _ | ⟨c, _ | ⟨d, l⟩⟩⟩⟩ <;> simp

theorem fromDatasetName_eq_none (s : Bytes) (h : (split '.' s).length ≠ 3) :
    FlockerBranch.fromDatasetName s = none := by
  rcases he : FlockerBranch.fromDatasetName s with _ | b
  · rfl
  · exact absurd ((isSome_fromDatasetName s).mp (by simp [he])) h

/-! ## Claim theorems -/

/-- C1 (counterexample): the claim `decodeFlatName(encodeFlatName(id, pool)) == id`
fails at the concrete identifier `("a", "b", "c")` and pool `"p"` (all tokens
non-empty and free of `.` and `/`): `fromDatasetName` splits the whole flat
name, so it returns the identifier `("p/a", "b", "c")`, not the original. -/
theorem C1_full_name_roundtrip_fails :
    FlockerBranch.fromDatasetName
        ((FlockerBranch.mk (bytes "a") (bytes "b") (bytes "c")).datasetName (bytes "p")) =
      some (FlockerBranch.mk (bytes "p/a") (bytes "b") (bytes "c")) ∧
    FlockerBranch.fromDatasetName
        ((FlockerBranch.mk (bytes "a") (bytes "b") (bytes "c")).datasetName (bytes "p")) ≠
      some (FlockerBranch.mk (bytes "a") (bytes "b") (bytes "c")) := by
  decide

/-- C1 (amended): for every identifier whose tokens are non-empty and contain
neither `.` nor `/`, and every valid pool name, the flat name produced by
`datasetName` is `pool ++ "/" ++ suffix` with `suffix` the dot-joined triple,
and decoding that dataset-relative suffix (not the full flat name) with
`fromDatasetName` yields the original identifier. -/
theorem C1_suffix_roundtrip (owner volume branch pool : Bytes)
    (hne : owner ≠ [] ∧ volume ≠ [] ∧ branch ≠ [])
    (hdot : '.' ∉ owner ∧ '.' ∉ volume ∧ '.' ∉ branch)
    (hslash : '/' ∉ owner ∧ '/' ∉ volume ∧ '/' ∉ branch)
    (hpool : pool ≠ [] ∧ '.' ∉ pool ∧ '/' ∉ pool) :
    (FlockerBranch.mk owner volume branch).datasetName pool =
      pool ++ '/' :: join '.' [owner, volume, branch] ∧
    FlockerBranch.fromDatasetName (join '.' [owner, volume, branch]) =
      some (FlockerBranch.mk owner volume branch) := by
  constructor
  · simp [FlockerBranch.datasetName]
  · unfold FlockerBranch.fromDatasetName
    rw [split_join_three '.' owner volume branch hdot.1 hdot.2.1 hdot.2.2]

/-- C1 witness: the amended round trip at identifier `("a", "b", "c")`,
pool `"p"`. -/
theorem C1_suffix_roundtrip_witness :
    FlockerBranch.fromDatasetName (join '.' [bytes "a", bytes "b", bytes "c"]) =
      some (FlockerBranch.mk (bytes "a") (bytes "b") (bytes "c")) :=
  (C1_suffix_roundtrip (bytes "a") (bytes "b") (bytes "c") (bytes "p")
    (by decide) (by decide) (by decide) (by decide)).2

/-- C2 (counterexample): the claim requires three NON-EMPTY tokens for
success, but `fromDatasetName` accepts `"a..b"`, whose split has an empty
middle token, returning the identifier `("a", "", "b")`. -/
theorem C2_empty_token_accepted :
    split '.' (bytes "a..b") = [bytes "a", bytes "", bytes "b"] ∧
    FlockerBranch.fromDatasetName (bytes "a..b") =
      some (FlockerBranch.mk (bytes "a") (bytes "") (bytes "b")) := by
  decide

/-- C2 (amended): for every input, `fromDatasetName` succeeds if and only if
splitting the input on `.` yields exactly three tokens — whether or not some
of them are empty; any other token count fails. -/
theorem C2_decode_success_iff (s : Bytes) :
    (FlockerBranch.fromDatasetName s).isSome ↔ (split '.' s).length = 3 :=
  isSome_fromDatasetName s

/-- C3: with equal volumes and the engine accepting the snapshot call,
`branchOffBranch` issues exactly two engine calls, in order: snapshot of
`encode(fromBranch) ++ "@" ++ newBranch.branch`, then clone from that
snapshot name to `encode(newBranch)`. -/
theorem C3_branch_protocol (f : Flocker) (ok : ZfsCall → Bool)
    (newBranch fromBranch : FlockerBranch)
    (hvol : newBranch.volume = fromBranch.volume)
    (hsnap : ok (ZfsCall.snapshot
        (fromBranch.datasetName f.poolName ++ '@' :: newBranch.branch)) = true) :
    (f.branchOffBranch ok newBranch fromBranch).1 =
      [ZfsCall.snapshot (fromBranch.datasetName f.poolName ++ '@' :: newBranch.branch),
       ZfsCall.clone (fromBranch.datasetName f.poolName ++ '@' :: newBranch.branch)
         (newBranch.datasetName f.poolName)] := by
  unfold Flocker.branchOffBranch
  simp only [hvol, ne_eq, not_true_eq_false, if_false, hsnap, if_true, ite_not]
  cases hclone : ok (ZfsCall.clone
      (fromBranch.datasetName f.poolName ++ '@' :: newBranch.branch)
      (newBranch.datasetName f.poolName)) <;>
    simp [hvol, hsnap, hclone]

/-- C3 witness: Scenario D, pool `pool1`, branching `db/feature` off
`db/trunk` with an all-accepting engine. -/
theorem C3_branch_protocol_witness :
    ((Flocker.mk (bytes "pool1")).branchOffBranch (fun _ => true)
        (FlockerBranch.mk (bytes "pool1") (bytes "db") (bytes "feature"))
        (FlockerBranch.mk (bytes "pool1") (bytes "db") (bytes "trunk"))).1 =
      [ZfsCall.snapshot (bytes "pool1/pool1.db.trunk@feature"),
       ZfsCall.clone (bytes "pool1/pool1.db.trunk@feature")
         (bytes "pool1/pool1.db.feature")] := by
  rw [C3_branch_protocol (Flocker.mk (bytes "pool1")) (fun _ => true)
    (FlockerBranch.mk (bytes "pool1") (bytes "db") (bytes "feature"))
    (FlockerBranch.mk (bytes "pool1") (bytes "db") (bytes "trunk"))
    (by decide) (by decide)]
  decide

/-- C4: with different volumes, `branchOffBranch` fails with the
cross-volume error and issues no engine call at all, for any engine
behaviour and any owner/branch fields. -/
theorem C4_cross_volume_rejected (f : Flocker) (ok : ZfsCall → Bool)
    (newBranch fromBranch : FlockerBranch)
    (h : newBranch.volume ≠ fromBranch.volume) :
    f.branchOffBranch ok newBranch fromBranch =
      ([], some FlockerError.crossVolumeBranch) := by
  unfold Flocker.branchOffBranch
  simp [h]

/-- C4 witness: branching `photos/feature` off `db/trunk` is rejected with
no engine call. -/
theorem C4_cross_volume_rejected_witness :
    (Flocker.mk (bytes "pool1")).branchOffBranch (fun _ => true)
        (FlockerBranch.mk (bytes "pool1") (bytes "photos") (bytes "feature"))
        (FlockerBranch.mk (bytes "pool1") (bytes "db") (bytes "trunk")) =
      ([], some FlockerError.crossVolumeBranch) :=
  C4_cross_volume_rejected (Flocker.mk (bytes "pool1")) (fun _ => true)
    (FlockerBranch.mk (bytes "pool1") (bytes "photos") (bytes "feature"))
    (FlockerBranch.mk (bytes "pool1") (bytes "db") (bytes "trunk"))
    (by decide)

/-- C5: on listings whose entries are each either junk (no `.`) or
well-formed (three dot-separated parts), `listVolumes` skips the junk and
renders each managed entry with `formatForDisplay` — short form for the local
owner, long form otherwise; in particular Scenario B yields `["db/trunk"]`
and Scenario C yields `["pool2/shared/trunk"]`. -/
theorem C5_list_volumes :
    (∀ (owner : Bytes) (entries : List Bytes),
        (∀ e ∈ entries, ('.' ∉ e) ∨ (split '.' e).length = 3) →
        (Flocker.mk owner).listVolumes entries =
          some (entries.filterMap (renderEntry owner))) ∧
    (Flocker.mk (bytes "pool1")).listVolumes
        [bytes "pool1.db.trunk", bytes "junkfile"] = some [bytes "db/trunk"] ∧
    (Flocker.mk (bytes "pool1")).listVolumes [bytes "pool2.shared.trunk"] =
      some [bytes "pool2/shared/trunk"] := by
  refine ⟨?_, by decide, by decide⟩
  intro owner entries h
  show listVolumesAux owner entries = _
  induction entries with
  | nil => rfl
  | cons e rest ih =>
    have he := h e (List.mem_cons_self e rest)
    have hrest := ih fun x hx => h x (List.mem_cons_of_mem e hx)
    by_cases hdot : '.' ∈ e
    · have hlen : (split '.' e).length = 3 := (he.resolve_left fun hn => hn hdot)
      obtain ⟨b, hb⟩ := Option.isSome_iff_exists.mp
        ((isSome_fromDatasetName e).mpr hlen)
      simp [listVolumesAux, hdot, hb, hrest, renderEntry]
    · simp [listVolumesAux, hdot, hrest, renderEntry]

/-- C5 witness: the general rendering law at a concrete mixed listing. -/
theorem C5_list_volumes_witness :
    (Flocker.mk (bytes "p")).listVolumes [bytes "a.b.c", bytes "junk"] =
      some ([bytes "a.b.c", bytes "junk"].filterMap (renderEntry (bytes "p"))) :=
  C5_list_volumes.1 (bytes "p") [bytes "a.b.c", bytes "junk"] (by decide)

/-- C6: `createVolume v` issues exactly one engine call, a create of the
flat name `pool ++ "/" ++ pool ++ "." ++ v ++ ".trunk"` built from the
identifier `(localOwner, v, "trunk")` with `localOwner = pool`; in
particular Scenario A creates `pool1/pool1.db.trunk`. -/
theorem C6_create_volume :
    (∀ (pool v : Bytes),
        (Flocker.mk pool).createVolume v =
          [ZfsCall.create
            (pool ++ '/' :: (pool ++ '.' :: (v ++ '.' :: bytes "trunk")))]) ∧
    (Flocker.mk (bytes "pool1")).createVolume (bytes "db") =
      [ZfsCall.create (bytes "pool1/pool1.db.trunk")] := by
  refine ⟨?_, by decide⟩
  intro pool v
  simp [Flocker.createVolume, FlockerBranch.datasetName, Flocker.flockerName,
    join]

/-- C7: `fromBranchName` on any reference string and default owner returns
`(defaultOwner, t1, t2)` when the slash-split has exactly two tokens,
`(t1, t2, t3)` when it has exactly three, and fails on any other count. -/
theorem C7_parse_reference (s d : Bytes) :
    FlockerBranch.fromBranchName s d =
      match split '/' s with
      | [v, b] => some (FlockerBranch.mk d v b)
      | [o, v, b] => some (FlockerBranch.mk o v b)
      | _ => none := by
  unfold FlockerBranch.fromBranchName
  rcases h : split '/' s with _ | ⟨a, _ | ⟨b, _ | ⟨c, _ | ⟨e, l⟩⟩⟩⟩ <;> simp

/-- C8: for every identifier whose tokens contain no `/`: when the owner is
the local owner, parsing the (short-form) display string with the local
owner as default recovers the identifier; when the owner differs, parsing
the (long-form) display string recovers the identifier for ANY default
owner. -/
theorem C8_reference_roundtrip (id : FlockerBranch) (localOwner d : Bytes)
    (hslash : '/' ∉ id.flockerName ∧ '/' ∉ id.volume ∧ '/' ∉ id.branch) :
    (id.flockerName = localOwner →
      FlockerBranch.fromBranchName (formatForDisplay localOwner id) localOwner =
        some id) ∧
    (id.flockerName ≠ localOwner →
      FlockerBranch.fromBranchName (formatForDisplay localOwner id) d =
        some id) := by
  obtain ⟨fn, v, b⟩ := id
  obtain ⟨h1, h2, h3⟩ := hslash
  constructor
  · intro heq
    subst heq
    have hs : split '/' (v ++ '/' :: b) = [v, b] := by
      rw [split_append_cons '/' v h2 b, split_of_not_mem '/' b h3]
    simp [formatForDisplay, FlockerBranch.fromBranchName, hs]
  · intro hne
    have hs : split '/' (fn ++ '/' :: (v ++ '/' :: b)) = [fn, v, b] := by
      rw [split_append_cons '/' fn h1, split_append_cons '/' v h2,
        split_of_not_mem '/' b h3]
    simp [formatForDisplay, FlockerBranch.fromBranchName, hne, join, hs]

/-- C8 witness: short-form round trip for `("pool1", "db", "trunk")` with
local owner `pool1`. -/
theorem C8_reference_roundtrip_witness :
    FlockerBranch.fromBranchName
        (formatForDisplay (bytes "pool1")
          (FlockerBranch.mk (bytes "pool1") (bytes "db") (bytes "trunk")))
        (bytes "pool1") =
      some (FlockerBranch.mk (bytes "pool1") (bytes "db") (bytes "trunk")) :=
  (C8_reference_roundtrip
    (FlockerBranch.mk (bytes "pool1") (bytes "db") (bytes "trunk"))
    (bytes "pool1") (bytes "other") (by decide)).1 (by decide)

/-- C9: when the volumes match, the engine accepts the snapshot call and
rejects the clone call, `branchOffBranch` issues exactly the trace
`[snapshot, clone]` — no compensating delete, no further call — and surfaces
the clone step's engine failure. -/
theorem C9_no_rollback (f : Flocker) (ok : ZfsCall → Bool)
    (newBranch fromBranch : FlockerBranch)
    (hvol : newBranch.volume = fromBranch.volume)
    (hsnap : ok (ZfsCall.snapshot
        (fromBranch.datasetName f.poolName ++ '@' :: newBranch.branch)) = true)
    (hclone : ok (ZfsCall.clone
        (fromBranch.datasetName f.poolName ++ '@' :: newBranch.branch)
        (newBranch.datasetName f.poolName)) = false) :
    f.branchOffBranch ok newBranch fromBranch =
      ([ZfsCall.snapshot (fromBranch.datasetName f.poolName ++ '@' :: newBranch.branch),
        ZfsCall.clone (fromBranch.datasetName f.poolName ++ '@' :: newBranch.branch)
          (newBranch.datasetName f.poolName)],
       some (FlockerError.engineFailure (ZfsCall.clone
         (fromBranch.datasetName f.poolName ++ '@' :: newBranch.branch)
         (newBranch.datasetName f.poolName)))) := by
  unfold Flocker.branchOffBranch
  simp [hvol, hsnap, hclone]

/-- C9 witness: Scenario E — an engine that accepts everything except clone
calls leaves the trace `[snapshot, clone]` and reports the clone failure. -/
theorem C9_no_rollback_witness :
    (Flocker.mk (bytes "pool1")).branchOffBranch
        (fun c => match c with | ZfsCall.clone _ _ => false | _ => true)
        (FlockerBranch.mk (bytes "pool1") (bytes "db") (bytes "feature"))
        (FlockerBranch.mk (bytes "pool1") (bytes "db") (bytes "trunk")) =
      ([ZfsCall.snapshot (bytes "pool1/pool1.db.trunk@feature"),
        ZfsCall.clone (bytes "pool1/pool1.db.trunk@feature")
          (bytes "pool1/pool1.db.feature")],
       some (FlockerError.engineFailure
         (ZfsCall.clone (bytes "pool1/pool1.db.trunk@feature")
           (bytes "pool1/pool1.db.feature")))) := by
  rw [C9_no_rollback (Flocker.mk (bytes "pool1"))
    (fun c => match c with | ZfsCall.clone _ _ => false | _ => true)
    (FlockerBranch.mk (bytes "pool1") (bytes "db") (bytes "feature"))
    (FlockerBranch.mk (bytes "pool1") (bytes "db") (bytes "trunk"))
    (by decide) (by decide) (by decide)]
  decide

/-- C10 (implicit): a listing containing an entry with at least one `.` that
does not split into exactly three parts makes `listVolumes` abort with no
result at all, wherever the malformed entry sits in the listing. -/
theorem C10_malformed_entry_aborts (owner : Bytes) (pre post : List Bytes)
    (e : Bytes) (hdot : '.' ∈ e) (hlen : (split '.' e).length ≠ 3) :
    (Flocker.mk owner).listVolumes (pre ++ e :: post) = none := by
  have hnone : FlockerBranch.fromDatasetName e = none :=
    fromDatasetName_eq_none e hlen
  show listVolumesAux owner (pre ++ e :: post) = none
  induction pre with
  | nil => simp [listVolumesAux, hdot, hnone]
  | cons x xs ih =>
    by_cases hx : '.' ∈ x
    · rcases hfx : FlockerBranch.fromDatasetName x with _ | bx <;>
        simp [listVolumesAux, hx, hfx, ih]
    · simp [listVolumesAux, hx, ih]

/-- C10 witness: the malformed entry `"a.b"` after a well-formed entry and
before another entry makes the whole listing fail. -/
theorem C10_malformed_entry_aborts_witness :
    (Flocker.mk (bytes "p")).listVolumes
        ([bytes "x.y.z"] ++ bytes "a.b" :: [bytes "junk"]) = none :=
  C10_malformed_entry_aborts (bytes "p") [bytes "x.y.z"] [bytes "junk"]
    (bytes "a.b") (by decide) (by decide)

end Flocker4
